import Mathlib

/-!
A shallow embedding of the PLTS hybrid on-grid monitoring pipeline
(main sketch `readAllSensors` / `calculateElectricalParameters` /
`getSystemStatus`, and the diagnostic variant `readLDRSensor` /
`calibrateLDR` from `debug_ldr.ino`).

The C++ source computes with IEEE `float`; here all real-valued
quantities are modelled over `ℚ`, which gives the exact real semantics
of the same arithmetic expressions.  Every comparison appearing in the
claims is evaluated far from any rounding boundary, so the `ℚ` model
and the `float` code agree on every branch taken.  The DHT driver's
NaN sentinel is modelled by `Option ℚ` (`none` = NaN), matching the
`isnan` checks in the source.  Raw ADC samples are natural numbers.
-/

namespace PLTS

/-- `VREF` from the source: 3.3 V. -/
def VREF : ℚ := 33 / 10

/-- `ADC_RESOLUTION` from the source: 4095 (12-bit ADC). -/
def ADC_RESOLUTION : ℚ := 4095

/-- `ACS712_SENSITIVITY` from the source: 0.185 V/A. -/
def ACS712_SENSITIVITY : ℚ := 37 / 200

/-- The raw inputs one cycle of `readAllSensors` consumes: the DHT
driver's temperature/humidity readings (`none` models NaN) and the
three raw ADC samples returned by `analogRead`. -/
structure RawInputs where
  dhtTemperature : Option ℚ
  dhtHumidity : Option ℚ
  ldrRaw : ℕ
  voltageRaw : ℕ
  currentRaw : ℕ
deriving Repr, DecidableEq

/-- The `SensorData` struct of the main sketch. -/
structure SensorData where
  temperature : Option ℚ
  humidity : Option ℚ
  lightIntensity : ℚ
  gridVoltage : ℚ
  loadCurrent : ℚ
  activePower : ℚ
  powerFactor : ℚ
  frequency : ℚ
  irradiance : ℚ
  dhtError : Bool
  ldrError : Bool
  voltageError : Bool
  currentError : Bool
deriving Repr, DecidableEq

/-- The global `SensorData data;` of the main sketch, zero-initialized
as a C++ global of static storage duration. -/
def initialData : SensorData :=
  { temperature := some 0, humidity := some 0, lightIntensity := 0,
    gridVoltage := 0, loadCurrent := 0, activePower := 0,
    powerFactor := 0, frequency := 0, irradiance := 0,
    dhtError := false, ldrError := false, voltageError := false,
    currentError := false }

/-- Lines 123-129 of the main sketch: lux from the LDR channel voltage.
`if(ldrVoltage > 0.1)` applies the inverse formula
`2500/ldrVoltage - 500` clamped to `[0, 50000]`, else lux is 0. -/
def luxFromVoltage (ldrVoltage : ℚ) : ℚ :=
  if ldrVoltage > 1 / 10 then
    let l0 := 2500 / ldrVoltage - 500
    let l1 := if l0 < 0 then 0 else l0
    if l1 > 50000 then 50000 else l1
  else 0

/-- `readAllSensors` of the main sketch (lines 107-161): reads the DHT
channel, sets `dhtError` from the `isnan` checks, converts the three
analog channels, and applies the plausibility clamps on `gridVoltage`
(ceiling 300) and `loadCurrent` (ceiling 50).  The previous record `d`
is the global `data`; the fields this function does not assign
(`activePower`, `powerFactor`, `frequency`) keep their prior values. -/
def readAllSensors (d : SensorData) (raw : RawInputs) : SensorData :=
  let temperature := raw.dhtTemperature
  let humidity := raw.dhtHumidity
  let dhtError := temperature.isNone || humidity.isNone
  let ldrVoltage := (raw.ldrRaw : ℚ) * VREF / ADC_RESOLUTION
  let lightIntensity := luxFromVoltage ldrVoltage
  let irradiance := lightIntensity / 120
  let voltageADC := (raw.voltageRaw : ℚ) * VREF / ADC_RESOLUTION
  let gridVoltage0 := voltageADC * 220
  let currentADC := (raw.currentRaw : ℚ) * VREF / ADC_RESOLUTION
  let currentOffset := VREF / 2
  let currentVoltage := currentADC - currentOffset
  let loadCurrent0 := |currentVoltage / ACS712_SENSITIVITY|
  let gridVoltage := if gridVoltage0 > 300 then 0 else gridVoltage0
  let loadCurrent := if loadCurrent0 > 50 then 0 else loadCurrent0
  { d with
    temperature := temperature, humidity := humidity,
    dhtError := dhtError, ldrError := false,
    lightIntensity := lightIntensity, irradiance := irradiance,
    voltageError := false, gridVoltage := gridVoltage,
    currentError := false, loadCurrent := loadCurrent }

/-- `calculateElectricalParameters` of the main sketch (lines 164-178):
`activePower = gridVoltage * loadCurrent * 0.9`, then forced to 0 if
above 10000, then forced to 0 if below 0.1; `frequency` is fixed 50. -/
def calculateElectricalParameters (d : SensorData) : SensorData :=
  let powerFactor : ℚ := 9 / 10
  let p0 := d.gridVoltage * d.loadCurrent * powerFactor
  let p1 := if p0 > 10000 then 0 else p0
  let p2 := if p1 < 1 / 10 then 0 else p1
  { d with
    powerFactor := powerFactor, activePower := p2,
    frequency := 50 }

/-- One production cycle of the main loop, as it affects the data
record: `readAllSensors(); calculateElectricalParameters();`. -/
def cycle (d : SensorData) (raw : RawInputs) : SensorData :=
  calculateElectricalParameters (readAllSensors d raw)

/-- `getSystemStatus` of the main sketch (lines 290-302). -/
def getSystemStatus (d : SensorData) : String :=
  if d.gridVoltage < 180 ∨ d.gridVoltage > 250 then "GRID FAULT"
  else if d.activePower > 5000 then "HIGH LOAD"
  else if d.activePower > 1000 then "NORMAL"
  else if d.activePower > 100 then "LOW LOAD"
  else "STANDBY"

/-- The status classifier as the spec's section 4.5 words it: the five
rules in strict priority order, first match wins.  Written from the
spec, to be compared with `getSystemStatus` written from the code. -/
def statusSpec (d : SensorData) : String :=
  if d.gridVoltage < 180 ∨ d.gridVoltage > 250 then "GRID FAULT"
  else if d.activePower > 5000 then "HIGH LOAD"
  else if d.activePower > 1000 then "NORMAL"
  else if d.activePower > 100 then "LOW LOAD"
  else "STANDBY"

/-- Lines 197-220 of `debug_ldr.ino` (`readLDRSensor`): lux and
irradiance from the LDR channel voltage.  `voltage >= 3.0` is
saturated-dark (0 lux); `voltage <= 0.3` is saturated-bright
(50000 lux); otherwise the linear map clamped to `[0, 50000]`.
Then irradiance = lux/120, and the final guard raises a computed
0 lux to 1 lux when the voltage is still below 3.0. -/
def readLDRConvert (voltage : ℚ) : ℚ × ℚ :=
  let lux0 :=
    if voltage ≥ 3 then 0
    else if voltage ≤ 3 / 10 then 50000
    else
      let l0 := 50000 - (voltage - 3 / 10) * 50000 / (27 / 10)
      let l1 := if l0 < 0 then 0 else l0
      if l1 > 50000 then 50000 else l1
  let irr0 := lux0 / 120
  if lux0 = 0 ∧ voltage < 3 then (1, 1 / 120) else (lux0, irr0)

/-- Lines 94-116 of `debug_ldr.ino` (`calibrateLDR`): average the
readings that pass the rail filter `reading > 10 && reading < 4085`
(integer division, as in the source); if none passes, fall back to the
mid-scale default 2048 and emit a warning (the returned flag). -/
def calibrateBaseline (readings : List ℕ) : ℕ × Bool :=
  let valid := readings.filter (fun r => decide (10 < r) && decide (r < 4085))
  if valid.length = 0 then (2048, true)
  else (valid.sum / valid.length, false)

/-- The clamped grid voltage of the record a cycle produces, as a
function of the raw voltage sample (unfolds `cycle`). -/
lemma cycle_gridVoltage (d : SensorData) (raw : RawInputs) :
    (cycle d raw).gridVoltage =
      (if (raw.voltageRaw : ℚ) * VREF / ADC_RESOLUTION * 220 > 300 then 0
       else (raw.voltageRaw : ℚ) * VREF / ADC_RESOLUTION * 220) := rfl

/-- The clamped load current of the record a cycle produces, as a
function of the raw current sample (unfolds `cycle`). -/
lemma cycle_loadCurrent (d : SensorData) (raw : RawInputs) :
    (cycle d raw).loadCurrent =
      (if |((raw.currentRaw : ℚ) * VREF / ADC_RESOLUTION - VREF / 2) /
            ACS712_SENSITIVITY| > 50 then 0
       else |((raw.currentRaw : ℚ) * VREF / ADC_RESOLUTION - VREF / 2) /
            ACS712_SENSITIVITY|) := rfl

/-- The light intensity of the record a cycle produces, as a function
of the raw light sample (unfolds `cycle`). -/
lemma cycle_lightIntensity (d : SensorData) (raw : RawInputs) :
    (cycle d raw).lightIntensity =
      luxFromVoltage ((raw.ldrRaw : ℚ) * VREF / ADC_RESOLUTION) := rfl

/-- The irradiance of the record a cycle produces (unfolds `cycle`). -/
lemma cycle_irradiance (d : SensorData) (raw : RawInputs) :
    (cycle d raw).irradiance =
      luxFromVoltage ((raw.ldrRaw : ℚ) * VREF / ADC_RESOLUTION) / 120 := rfl

/-- The active power of the record a cycle produces, in terms of the
record's own clamped voltage and current (unfolds `cycle`). -/
lemma cycle_activePower (d : SensorData) (raw : RawInputs) :
    (cycle d raw).activePower =
      (if (if (cycle d raw).gridVoltage * (cycle d raw).loadCurrent * (9 / 10) > 10000
           then 0
           else (cycle d raw).gridVoltage * (cycle d raw).loadCurrent * (9 / 10)) < 1 / 10
       then 0
       else (if (cycle d raw).gridVoltage * (cycle d raw).loadCurrent * (9 / 10) > 10000
             then 0
             else (cycle d raw).gridVoltage * (cycle d raw).loadCurrent * (9 / 10))) := rfl

/-- C3: The status classifier is a pure total function of the data
record, equal to the spec's priority-ordered rule list (first match
wins); in particular every record with `gridVoltage = 260` yields
"GRID FAULT" regardless of `activePower`, and the output is always one
of the five labels. -/
theorem getSystemStatus_matches_spec (d : SensorData) :
    getSystemStatus d = statusSpec d ∧
    (d.gridVoltage = 260 → getSystemStatus d = "GRID FAULT") ∧
    (getSystemStatus d = "GRID FAULT" ∨ getSystemStatus d = "HIGH LOAD" ∨
     getSystemStatus d = "NORMAL" ∨ getSystemStatus d = "LOW LOAD" ∨
     getSystemStatus d = "STANDBY") := by
  refine ⟨rfl, ?_, ?_⟩
  · intro h
    have h1 : d.gridVoltage > 250 := by rw [h]; norm_num
    simp [getSystemStatus, h1]
  · unfold getSystemStatus
    split
    · tauto
    · split
      · tauto
      · split
        · tauto
        · split
          · tauto
          · tauto

/-- Witness for C3 at a concrete record with `gridVoltage = 260`. -/
theorem getSystemStatus_matches_spec_witness :
    getSystemStatus { initialData with gridVoltage := 260 } = "GRID FAULT" :=
  (getSystemStatus_matches_spec { initialData with gridVoltage := 260 }).2.1 rfl

/-- C9: in every cycle, whatever the previous record and the raw
inputs, the `ldrError`, `voltageError` and `currentError` flags of the
output record are `false`: the analog channels have no unavailability
path. -/
theorem analog_error_flags_always_false (d : SensorData) (raw : RawInputs) :
    (cycle d raw).ldrError = false ∧
    (cycle d raw).voltageError = false ∧
    (cycle d raw).currentError = false :=
  ⟨rfl, rfl, rfl⟩

/-- C5: in every cycle `powerFactor` is fixed at 0.9 and `frequency`
at 50, and `activePower` equals `gridVoltage * loadCurrent * 0.9`
except that it is forced to exactly 0 whenever that product exceeds
10000 or is below 0.1. -/
theorem activePower_formula (d : SensorData) (raw : RawInputs) :
    (cycle d raw).powerFactor = 9 / 10 ∧
    (cycle d raw).frequency = 50 ∧
    (cycle d raw).activePower =
      (if (cycle d raw).gridVoltage * (cycle d raw).loadCurrent * (9 / 10) > 10000 ∨
          (cycle d raw).gridVoltage * (cycle d raw).loadCurrent * (9 / 10) < 1 / 10
       then 0
       else (cycle d raw).gridVoltage * (cycle d raw).loadCurrent * (9 / 10)) := by
  refine ⟨rfl, rfl, ?_⟩
  show (let p0 := (readAllSensors d raw).gridVoltage * (readAllSensors d raw).loadCurrent * (9 / 10)
        let p1 := if p0 > 10000 then 0 else p0
        if p1 < 1 / 10 then 0 else p1) = _
  have hg : (cycle d raw).gridVoltage = (readAllSensors d raw).gridVoltage := rfl
  have hl : (cycle d raw).loadCurrent = (readAllSensors d raw).loadCurrent := rfl
  rw [hg, hl]
  set p0 := (readAllSensors d raw).gridVoltage * (readAllSensors d raw).loadCurrent * (9 / 10) with hp0
  by_cases h1 : p0 > 10000
  · have h2 : (0 : ℚ) < 1 / 10 := by norm_num
    simp [h1, h2]
  · simp only [h1, if_false, if_neg]
    by_cases h3 : p0 < 1 / 10
    · simp [h3, h1]
    · simp [h3, h1]

/-- C7: in every cycle the `dhtError` flag of the output record is set
if and only if the DHT driver reported an undefined (NaN, here `none`)
result for temperature or for humidity; the temperature and humidity
fields themselves pass through from the driver, governed together by
that single flag. -/
theorem dhtError_iff_driver_nan (d : SensorData) (raw : RawInputs) :
    ((cycle d raw).dhtError = true ↔
      (raw.dhtTemperature = none ∨ raw.dhtHumidity = none)) ∧
    (cycle d raw).temperature = raw.dhtTemperature ∧
    (cycle d raw).humidity = raw.dhtHumidity := by
  refine ⟨?_, rfl, rfl⟩
  have h : (cycle d raw).dhtError =
      (raw.dhtTemperature.isNone || raw.dhtHumidity.isNone) := rfl
  rw [h]
  simp [Option.isNone_iff_eq_none]

/-- C8: the conversion/derivation/classification chain is a
deterministic function of the raw inputs: its output does not depend
on the previous record (the hidden global), so running it twice on the
same raw inputs — the second run starting from the record the first
produced — yields bit-identical records and the same status label. -/
theorem cycle_deterministic (p q : SensorData) (raw : RawInputs) :
    cycle p raw = cycle q raw ∧
    cycle (cycle p raw) raw = cycle p raw ∧
    getSystemStatus (cycle p raw) = getSystemStatus (cycle q raw) :=
  ⟨rfl, rfl, rfl⟩

/-- C4: whenever the converted grid voltage exceeds the plausibility
ceiling 300, the record's `gridVoltage` is exactly 0; whenever the
converted current magnitude exceeds the ceiling 50, the record's
`loadCurrent` is exactly 0.  (Within the 12-bit ADC range the current
magnitude stays below 9 A, so the current clamp is exercised only by
out-of-range samples; the clamp line is nonetheless in the code.) -/
theorem plausibility_clamps (d : SensorData) (raw : RawInputs) :
    ((raw.voltageRaw : ℚ) * VREF / ADC_RESOLUTION * 220 > 300 →
      (cycle d raw).gridVoltage = 0) ∧
    (|((raw.currentRaw : ℚ) * VREF / ADC_RESOLUTION - VREF / 2) /
        ACS712_SENSITIVITY| > 50 →
      (cycle d raw).loadCurrent = 0) := by
  constructor
  · intro h
    rw [cycle_gridVoltage, if_pos h]
  · intro h
    rw [cycle_loadCurrent, if_pos h]

/-- Witness for C4: raw voltage sample 2048 converts to about 363 V
(above 300), and raw current sample 20000 converts to about 78 A in
magnitude (above 50); both fields of the record are 0. -/
theorem plausibility_clamps_witness :
    (cycle initialData
      { dhtTemperature := some 25, dhtHumidity := some 60,
        ldrRaw := 1000, voltageRaw := 2048, currentRaw := 20000 }).gridVoltage = 0 ∧
    (cycle initialData
      { dhtTemperature := some 25, dhtHumidity := some 60,
        ldrRaw := 1000, voltageRaw := 2048, currentRaw := 20000 }).loadCurrent = 0 := by
  constructor
  · exact (plausibility_clamps initialData _).1 (by norm_num [VREF, ADC_RESOLUTION])
  · refine (plausibility_clamps initialData _).2 ?_
    have h : ((20000 : ℕ) : ℚ) * VREF / ADC_RESOLUTION - VREF / 2 = 78991 / 5460 := by
      norm_num [VREF, ADC_RESOLUTION]
    rw [h]
    rw [abs_div, abs_of_pos (by norm_num : (0 : ℚ) < 78991 / 5460),
      abs_of_pos (by norm_num [ACS712_SENSITIVITY] : (0 : ℚ) < ACS712_SENSITIVITY)]
    norm_num [ACS712_SENSITIVITY]

/-- For every channel voltage the main sketch's lux conversion stays
strictly below 24500: in the formula branch the branch condition
`voltage > 0.1` already bounds `2500/voltage - 500` by 24500, and the
saturated branch yields 0. -/
lemma luxFromVoltage_lt (v : ℚ) : luxFromVoltage v < 24500 := by
  unfold luxFromVoltage
  by_cases h : v > 1 / 10
  · have hv : (0 : ℚ) < v := lt_trans (by norm_num) h
    have h25 : 2500 / v < 25000 := by
      rw [div_lt_iff₀ hv]
      nlinarith
    simp only [h, if_true]
    split_ifs with h1 h2 h2 <;> linarith
  · simp only [h, if_false]
    norm_num

/-- C10: in the main sketch, for every raw light sample in the ADC
range the computed `lightIntensity` is strictly below 24500, so the
saturated value 50000 and the upper clamp to 50000 are never produced,
and `irradiance` never exceeds 24500/120. -/
theorem lightIntensity_lt_24500 (d : SensorData) (raw : RawInputs)
    (h : raw.ldrRaw ≤ 4095) :
    (cycle d raw).lightIntensity < 24500 ∧
    (cycle d raw).irradiance ≤ 24500 / 120 := by
  rw [cycle_lightIntensity, cycle_irradiance]
  have hl := luxFromVoltage_lt ((raw.ldrRaw : ℚ) * VREF / ADC_RESOLUTION)
  exact ⟨hl, by linarith⟩

/-- Witness for C10 at raw light sample 125, the smallest sample that
takes the formula branch. -/
theorem lightIntensity_lt_24500_witness :
    (cycle initialData
      { dhtTemperature := some 25, dhtHumidity := some 60,
        ldrRaw := 125, voltageRaw := 0, currentRaw := 0 }).lightIntensity < 24500 ∧
    (cycle initialData
      { dhtTemperature := some 25, dhtHumidity := some 60,
        ldrRaw := 125, voltageRaw := 0, currentRaw := 0 }).irradiance ≤ 24500 / 120 :=
  lightIntensity_lt_24500 initialData _ (by norm_num)

/-- C1 counterexample: at raw voltage sample 2048 and raw current
sample 2048 the status classifier does not return "STANDBY" (it
returns "GRID FAULT", because the zeroed grid voltage is below the 180
lower bound of rule 1). -/
theorem status_at_2048_not_standby :
    getSystemStatus (cycle initialData
      { dhtTemperature := some 25, dhtHumidity := some 60,
        ldrRaw := 1000, voltageRaw := 2048, currentRaw := 2048 }) ≠ "STANDBY" := by
  have hg : (cycle initialData
      { dhtTemperature := some 25, dhtHumidity := some 60,
        ldrRaw := 1000, voltageRaw := 2048, currentRaw := 2048 }).gridVoltage = 0 := by
    rw [cycle_gridVoltage, if_pos]
    norm_num [VREF, ADC_RESOLUTION]
  unfold getSystemStatus
  rw [hg]
  norm_num
  decide

/-- C1 (amended): for a cycle whose raw voltage and current samples
are both 2048, the converted grid voltage (≈363) exceeds the 300
plausibility ceiling, so the record's `gridVoltage` is forced to 0 and
`activePower` is 0; the status classifier applied to that record
returns "GRID FAULT" — not "STANDBY" — because the zeroed grid voltage
falls below the 180 lower bound of the first classification rule. -/
theorem both_2048_yields_grid_fault (d : SensorData) (raw : RawInputs)
    (hv : raw.voltageRaw = 2048) (hc : raw.currentRaw = 2048) :
    (cycle d raw).gridVoltage = 0 ∧ (cycle d raw).activePower = 0 ∧
    getSystemStatus (cycle d raw) = "GRID FAULT" := by
  have hg : (cycle d raw).gridVoltage = 0 := by
    rw [cycle_gridVoltage, hv, if_pos]
    norm_num [VREF, ADC_RESOLUTION]
  have hp : (cycle d raw).activePower = 0 := by
    rw [cycle_activePower, hg]
    norm_num
  refine ⟨hg, hp, ?_⟩
  unfold getSystemStatus
  rw [hg]
  norm_num

/-- Witness for C1's amended theorem at a fully concrete input. -/
theorem both_2048_yields_grid_fault_witness :
    (cycle initialData
      { dhtTemperature := some 25, dhtHumidity := some 60,
        ldrRaw := 1000, voltageRaw := 2048, currentRaw := 2048 }).gridVoltage = 0 ∧
    (cycle initialData
      { dhtTemperature := some 25, dhtHumidity := some 60,
        ldrRaw := 1000, voltageRaw := 2048, currentRaw := 2048 }).activePower = 0 ∧
    getSystemStatus (cycle initialData
      { dhtTemperature := some 25, dhtHumidity := some 60,
        ldrRaw := 1000, voltageRaw := 2048, currentRaw := 2048 }) = "GRID FAULT" :=
  both_2048_yields_grid_fault initialData _ rfl rfl

/-- C2: in the diagnostic variant's light conversion, every channel
voltage at or below the 0.3 V low guard yields the saturated-bright
maximum 50000 lux and irradiance 50000/120; every voltage at or above
the 3.0 V high guard yields exactly 0 lux (and 0 irradiance). -/
theorem ldr_guard_saturation (v : ℚ) :
    (v ≤ 3 / 10 → readLDRConvert v = (50000, 50000 / 120)) ∧
    (3 ≤ v → readLDRConvert v = (0, 0)) := by
  constructor
  · intro h
    have h3 : ¬ (3 ≤ v) := by linarith
    simp only [readLDRConvert, ge_iff_le, h3, if_false, h, if_true]
    norm_num
  · intro h
    have h3 : ¬ (v < 3) := not_lt.mpr h
    simp only [readLDRConvert, ge_iff_le, h, if_true]
    simp [h3]

/-- Witness for C2 at voltage 0.05 V (the spec's example) and at the
high guard voltage 3.0 V. -/
theorem ldr_guard_saturation_witness :
    readLDRConvert (1 / 20) = (50000, 50000 / 120) ∧
    readLDRConvert 3 = (0, 0) :=
  ⟨(ldr_guard_saturation (1 / 20)).1 (by norm_num),
   (ldr_guard_saturation 3).2 (by norm_num)⟩

/-- C6: if every reading of a calibration sequence is rejected by the
rail filter (`reading > 10 && reading < 4085`), the calibration stage
falls back to the mid-scale default 2048 and reports a warning.  The
model is a total function on arbitrary reading sequences: no input
raises a fatal error. -/
theorem calibrateBaseline_fallback (readings : List ℕ)
    (h : ∀ r ∈ readings, ¬(10 < r ∧ r < 4085)) :
    calibrateBaseline readings = (2048, true) := by
  unfold calibrateBaseline
  have hf : readings.filter (fun r => decide (10 < r) && decide (r < 4085)) = [] := by
    rw [List.filter_eq_nil_iff]
    intro a ha
    simpa using h a ha
  simp [hf]

/-- Witness for C6: twenty readings stuck at 5 (all within 10 of the
low rail) fall back to the 2048 default with a warning. -/
theorem calibrateBaseline_fallback_witness :
    calibrateBaseline (List.replicate 20 5) = (2048, true) :=
  calibrateBaseline_fallback _ (by decide)

end PLTS
